import Mathlib

/-!
Verification of the hola.py Alexa skill: a shallow embedding of the four
request handlers and the catch-all exception handler of `src/hola.py`,
together with the request dispatcher they are registered into.
The handler predicates, handler actions and the registration order are
translated directly from `src/hola.py`; the dispatcher and the response
builder live in the external SDK and are modelled from the specification.
-/

/-- An incoming request as consumed by the handlers: a request type
(for example "LaunchRequest" or "IntentRequest") and, for intent requests,
the recognized intent name. -/
structure Request where
  requestType : String
  intentName : Option String
  deriving DecidableEq, Repr

/-- A display card with a title and a body content, as in
`ask_sdk_model.ui.SimpleCard(title, content)`. -/
structure SimpleCard where
  title : String
  content : String
  deriving DecidableEq, Repr

/-- Modelled from the spec: the OutgoingResponse carries spoken text, an
optional display card, an optional reprompt text, and the flag saying
whether the voice session should end. -/
structure Response where
  outputSpeech : Option String
  card : Option SimpleCard
  reprompt : Option String
  shouldEndSession : Option Bool
  deriving DecidableEq, Repr

/-- Modelled from the spec: a fresh response builder starts each dispatch
cycle with an empty response. -/
def ResponseFactory.empty : Response :=
  { outputSpeech := none, card := none, reprompt := none, shouldEndSession := none }

/-- Modelled from the spec: `speak` sets the spoken text of the response. -/
def Response.speak (resp : Response) (t : String) : Response :=
  { resp with outputSpeech := some t }

/-- Modelled from the spec: `ask` sets the reprompt text and keeps the voice
session open awaiting further user input. -/
def Response.ask (resp : Response) (t : String) : Response :=
  { resp with reprompt := some t, shouldEndSession := some false }

/-- Modelled from the spec: `set_card` attaches a display card. -/
def Response.set_card (resp : Response) (c : SimpleCard) : Response :=
  { resp with card := some c }

/-- Modelled from the spec: `set_should_end_session` sets the session flag. -/
def Response.set_should_end_session (resp : Response) (b : Bool) : Response :=
  { resp with shouldEndSession := some b }

/-- Modelled from the spec: `is_request_type(t)` matches requests whose
request type equals `t`. -/
def is_request_type (t : String) (r : Request) : Bool :=
  r.requestType == t

/-- Modelled from the spec: `is_intent_name(n)` matches intent requests
whose intent name equals `n`. -/
def is_intent_name (n : String) (r : Request) : Bool :=
  r.requestType == "IntentRequest" && r.intentName == some n

/-- Errors raised while evaluating a predicate or executing an action
(HandlerFault in the spec); carried as an opaque message. -/
abbrev Err := String

/-- A request handler: a predicate and an action, either of which may raise
an error. -/
structure RequestHandler where
  can_handle : Request → Except Err Bool
  handle : Request → Except Err Response

/-- An exception handler: a predicate and an action over (request, error);
the action returns its response together with the list of errors it forwards
to the logging collaborator. -/
structure ExceptionHandler where
  can_handle : Request → Err → Bool
  handle : Request → Err → Response × List Err

/-- A handler whose predicate and action never raise. -/
def pureHandler (p : Request → Bool) (a : Request → Response) : RequestHandler :=
  { can_handle := fun r => .ok (p r), handle := fun r => .ok (a r) }

/-- Greeting speech of `LaunchRequestHandler.handle` (src/hola.py line 33). -/
def launch_speech_text : String :=
  "Hola, Bienvenido al Kit de Skills de la Alexa, ahora puedes decir Hola Mundo!"

/-- `LaunchRequestHandler.can_handle` (src/hola.py lines 27-29). -/
def LaunchRequestHandler_can_handle (r : Request) : Bool :=
  is_request_type "LaunchRequest" r

/-- `LaunchRequestHandler.handle` (src/hola.py lines 31-38). -/
def LaunchRequestHandler_handle (_r : Request) : Response :=
  ((ResponseFactory.empty.speak launch_speech_text).set_card
      ⟨"Hola Mundo", launch_speech_text⟩).set_should_end_session false

/-- The launch handler registered first (src/hola.py line 116). -/
def LaunchRequestHandler : RequestHandler :=
  pureHandler LaunchRequestHandler_can_handle LaunchRequestHandler_handle

/-- Speech of `HolaMundoIntentHandler.handle` (src/hola.py line 51). -/
def holaMundo_speech_text : String :=
  "El mundo es un lugar maravilloso, lástima que los humanos no lo cuidan como debería ser"

/-- `HolaMundoIntentHandler.can_handle` (src/hola.py lines 45-47). -/
def HolaMundoIntentHandler_can_handle (r : Request) : Bool :=
  is_intent_name "HolaMundoIntent" r

/-- `HolaMundoIntentHandler.handle` (src/hola.py lines 49-56). -/
def HolaMundoIntentHandler_handle (_r : Request) : Response :=
  ((ResponseFactory.empty.speak holaMundo_speech_text).set_card
      ⟨"Hola Mundo", holaMundo_speech_text⟩).set_should_end_session true

/-- The primary intent handler registered second (src/hola.py line 117). -/
def HolaMundoIntentHandler : RequestHandler :=
  pureHandler HolaMundoIntentHandler_can_handle HolaMundoIntentHandler_handle

/-- Speech of `HelpIntentHandler.handle` (src/hola.py line 70). -/
def help_speech_text : String :=
  "Puedes decirme Hola Mundo y te responderé que pienso!"

/-- `HelpIntentHandler.can_handle` (src/hola.py lines 64-66). -/
def HelpIntentHandler_can_handle (r : Request) : Bool :=
  is_intent_name "AMAZON.HelpIntent" r

/-- `HelpIntentHandler.handle` (src/hola.py lines 68-74). -/
def HelpIntentHandler_handle (_r : Request) : Response :=
  ((ResponseFactory.empty.speak help_speech_text).ask help_speech_text).set_card
    ⟨"Hola Mundo", help_speech_text⟩

/-- The help handler registered third (src/hola.py line 118). -/
def HelpIntentHandler : RequestHandler :=
  pureHandler HelpIntentHandler_can_handle HelpIntentHandler_handle

/-- Speech of `CancelAndStopIntentHandler.handle` (src/hola.py line 88). -/
def cancelStop_speech_text : String :=
  "Nos vemos luego, acuerdate de cuidar al mundo para que siga siendo un lugar maravilloso!"

/-- `CancelAndStopIntentHandler.can_handle` (src/hola.py lines 82-84). -/
def CancelAndStopIntentHandler_can_handle (r : Request) : Bool :=
  is_intent_name "AMAZON.CancelIntent" r || is_intent_name "AMAZON.StopIntent" r

/-- `CancelAndStopIntentHandler.handle` (src/hola.py lines 86-92). -/
def CancelAndStopIntentHandler_handle (_r : Request) : Response :=
  ((ResponseFactory.empty.speak cancelStop_speech_text).set_card
      ⟨"Hola Mundo", cancelStop_speech_text⟩).set_should_end_session true

/-- The cancel/stop handler registered fourth (src/hola.py line 119). -/
def CancelAndStopIntentHandler : RequestHandler :=
  pureHandler CancelAndStopIntentHandler_can_handle CancelAndStopIntentHandler_handle

/-- Apology speech of `AllExceptionHandler.handle` (src/hola.py line 112). -/
def exception_speech : String :=
  "Ah caray, no lo he entendido. Puedes repetirmelo una vez más!!"

/-- `AllExceptionHandler.can_handle` (src/hola.py lines 103-105): always true. -/
def AllExceptionHandler_can_handle (_r : Request) (_e : Err) : Bool :=
  true

/-- `AllExceptionHandler.handle` (src/hola.py lines 107-114): logs the
exception once (the `print(exception)` on line 110, modelled as the singleton
forwarded-error list) and returns the fixed apology with the same speech as
reprompt. -/
def AllExceptionHandler_handle (_r : Request) (e : Err) : Response × List Err :=
  ((ResponseFactory.empty.speak exception_speech).ask exception_speech, [e])

/-- The catch-all exception handler registered on src/hola.py line 120. -/
def AllExceptionHandler : ExceptionHandler :=
  { can_handle := AllExceptionHandler_can_handle
    handle := AllExceptionHandler_handle }

/-- Modelled from the spec: the dispatcher evaluates handler predicates in
registration order and returns the first handler whose predicate is true;
an error raised by a predicate propagates. -/
def findHandler : List RequestHandler → Request → Except Err (Option RequestHandler)
  | [], _ => .ok none
  | h :: hs, r =>
    match h.can_handle r with
    | .error e => .error e
    | .ok true => .ok (some h)
    | .ok false => findHandler hs r

/-- Outcome of one dispatch cycle: a produced response, an explicit
UnhandledRequest signal, or an error no exception handler accepted. -/
inductive DispatchOutcome where
  | responded (resp : Response)
  | unhandledRequest
  | failed (e : Err)
  deriving DecidableEq, Repr

/-- Modelled from the spec: the error-free part of a dispatch cycle —
find the first matching handler and run its action; if no handler matches
and no error occurs, signal UnhandledRequest explicitly. -/
def dispatchRun (hs : List RequestHandler) (r : Request) : Except Err DispatchOutcome :=
  match findHandler hs r with
  | .error e => .error e
  | .ok none => .ok .unhandledRequest
  | .ok (some h) =>
    match h.handle r with
    | .error e => .error e
    | .ok resp => .ok (.responded resp)

/-- Modelled from the spec: the full dispatch cycle. Any error raised while
matching or handling is given to the first exception handler whose predicate
accepts it; the result also carries the errors forwarded to the logging
collaborator during the cycle. -/
def dispatch (hs : List RequestHandler) (ehs : List ExceptionHandler) (r : Request) :
    DispatchOutcome × List Err :=
  match dispatchRun hs r with
  | .ok out => (out, [])
  | .error e =>
    match ehs.find? (fun eh => eh.can_handle r e) with
    | some eh =>
      let (resp, log) := eh.handle r e
      (.responded resp, log)
    | none => (.failed e, [])

/-- The request handlers in registration order (src/hola.py lines 116-119). -/
def skillRequestHandlers : List RequestHandler :=
  [LaunchRequestHandler, HolaMundoIntentHandler, HelpIntentHandler, CancelAndStopIntentHandler]

/-- The exception handlers registered (src/hola.py line 120). -/
def skillExceptionHandlers : List ExceptionHandler :=
  [AllExceptionHandler]

/-- The skill as deployed: dispatch over the registered handlers. -/
def skillDispatch (r : Request) : DispatchOutcome × List Err :=
  dispatch skillRequestHandlers skillExceptionHandlers r

/-- Dispatch past a pure handler: first-match-wins step lemma. -/
theorem dispatch_cons_pure (p : Request → Bool) (a : Request → Response)
    (hs : List RequestHandler) (ehs : List ExceptionHandler) (r : Request) :
    dispatch (pureHandler p a :: hs) ehs r =
      if p r then (.responded (a r), []) else dispatch hs ehs r := by
  cases hp : p r <;> simp [dispatch, dispatchRun, findHandler, pureHandler, hp]

/-- Dispatch over the empty handler list signals UnhandledRequest. -/
theorem dispatch_nil (ehs : List ExceptionHandler) (r : Request) :
    dispatch [] ehs r = (.unhandledRequest, []) := by
  simp [dispatch, dispatchRun, findHandler]

/-- C1: for every incoming request, the dispatcher evaluates the registered
handler predicates in registration order (Launch, primary intent, Help,
Cancel/Stop), invokes the action of the first handler whose predicate returns
true, and returns that action's response (UnhandledRequest if none matches). -/
theorem dispatch_first_match_in_registration_order (r : Request) :
    skillDispatch r =
      if LaunchRequestHandler_can_handle r then
        (.responded (LaunchRequestHandler_handle r), [])
      else if HolaMundoIntentHandler_can_handle r then
        (.responded (HolaMundoIntentHandler_handle r), [])
      else if HelpIntentHandler_can_handle r then
        (.responded (HelpIntentHandler_handle r), [])
      else if CancelAndStopIntentHandler_can_handle r then
        (.responded (CancelAndStopIntentHandler_handle r), [])
      else (.unhandledRequest, []) := by
  simp only [skillDispatch, skillRequestHandlers, LaunchRequestHandler, HolaMundoIntentHandler,
    HelpIntentHandler, CancelAndStopIntentHandler, dispatch_cons_pure, dispatch_nil]

/-- C2: if any handler predicate evaluation or action execution raises an
error, the dispatcher returns the exception handler's fixed apology speech
with that same speech as reprompt and the session left open, and the error is
forwarded to the logging collaborator exactly once. -/
theorem dispatch_error_apology_logged_once (hs : List RequestHandler) (r : Request) (e : Err)
    (h : dispatchRun hs r = .error e) :
    dispatch hs skillExceptionHandlers r =
      (.responded { outputSpeech := some exception_speech, card := none,
                    reprompt := some exception_speech, shouldEndSession := some false },
       [e]) := by
  simp [dispatch, h, skillExceptionHandlers, AllExceptionHandler, AllExceptionHandler_can_handle,
    AllExceptionHandler_handle, ResponseFactory.empty, Response.speak, Response.ask]

/-- A handler whose action always raises, used to exercise the error path. -/
def boomHandler : RequestHandler :=
  { can_handle := fun _ => .ok true, handle := fun _ => .error "boom" }

/-- Witness for C2 at a concrete failing handler and request. -/
theorem dispatch_error_apology_logged_once_witness :
    dispatch [boomHandler] skillExceptionHandlers ⟨"LaunchRequest", none⟩ =
      (.responded { outputSpeech := some exception_speech, card := none,
                    reprompt := some exception_speech, shouldEndSession := some false },
       ["boom"]) :=
  dispatch_error_apology_logged_once [boomHandler] ⟨"LaunchRequest", none⟩ "boom" rfl

/-- C3: an intent request whose intent name matches none of the four
registered handler predicates, and which raises no error, yields the explicit
UnhandledRequest signal (and an empty response is never produced). -/
theorem unmatched_intent_signals_unhandled (r : Request)
    (ht : r.requestType = "IntentRequest")
    (h1 : r.intentName ≠ some "HolaMundoIntent")
    (h2 : r.intentName ≠ some "AMAZON.HelpIntent")
    (h3 : r.intentName ≠ some "AMAZON.CancelIntent")
    (h4 : r.intentName ≠ some "AMAZON.StopIntent") :
    skillDispatch r = (.unhandledRequest, []) := by
  have hL : LaunchRequestHandler_can_handle r = false := by
    simp [LaunchRequestHandler_can_handle, is_request_type, ht]
  have hM : HolaMundoIntentHandler_can_handle r = false := by
    simp [HolaMundoIntentHandler_can_handle, is_intent_name, ht, h1]
  have hH : HelpIntentHandler_can_handle r = false := by
    simp [HelpIntentHandler_can_handle, is_intent_name, ht, h2]
  have hC : CancelAndStopIntentHandler_can_handle r = false := by
    simp [CancelAndStopIntentHandler_can_handle, is_intent_name, ht, h3, h4]
  simp only [skillDispatch, skillRequestHandlers, LaunchRequestHandler, HolaMundoIntentHandler,
    HelpIntentHandler, CancelAndStopIntentHandler, dispatch_cons_pure, dispatch_nil,
    hL, hM, hH, hC, if_false, Bool.false_eq_true]

/-- Witness for C3 at a concrete unregistered intent. -/
theorem unmatched_intent_signals_unhandled_witness :
    skillDispatch ⟨"IntentRequest", some "FooIntent"⟩ = (.unhandledRequest, []) :=
  unmatched_intent_signals_unhandled ⟨"IntentRequest", some "FooIntent"⟩ rfl
    (by simp) (by simp) (by simp) (by simp)

/-- C4: a LaunchRequest yields the fixed greeting speech, should-end-session
false, and a card titled "Hola Mundo" whose body is the greeting text. -/
theorem launch_request_greeting_card (r : Request)
    (h : r.requestType = "LaunchRequest") :
    skillDispatch r = (.responded (LaunchRequestHandler_handle r), []) ∧
    (LaunchRequestHandler_handle r).outputSpeech = some launch_speech_text ∧
    (LaunchRequestHandler_handle r).shouldEndSession = some false ∧
    (LaunchRequestHandler_handle r).card = some ⟨"Hola Mundo", launch_speech_text⟩ := by
  have hL : LaunchRequestHandler_can_handle r = true := by
    simp [LaunchRequestHandler_can_handle, is_request_type, h]
  refine ⟨?_, rfl, rfl, rfl⟩
  simp only [skillDispatch, skillRequestHandlers, LaunchRequestHandler, dispatch_cons_pure,
    hL, if_true]

/-- Witness for C4 at a concrete launch request. -/
theorem launch_request_greeting_card_witness :
    skillDispatch ⟨"LaunchRequest", none⟩ =
      (.responded (LaunchRequestHandler_handle ⟨"LaunchRequest", none⟩), []) ∧
    (LaunchRequestHandler_handle ⟨"LaunchRequest", none⟩).outputSpeech = some launch_speech_text ∧
    (LaunchRequestHandler_handle ⟨"LaunchRequest", none⟩).shouldEndSession = some false ∧
    (LaunchRequestHandler_handle ⟨"LaunchRequest", none⟩).card =
      some ⟨"Hola Mundo", launch_speech_text⟩ :=
  launch_request_greeting_card ⟨"LaunchRequest", none⟩ rfl

/-- C5: an intent request named HolaMundoIntent yields a response with
should-end-session true and the fixed primary response text as speech. -/
theorem hola_mundo_intent_ends_session (r : Request)
    (ht : r.requestType = "IntentRequest")
    (hn : r.intentName = some "HolaMundoIntent") :
    skillDispatch r = (.responded (HolaMundoIntentHandler_handle r), []) ∧
    (HolaMundoIntentHandler_handle r).shouldEndSession = some true ∧
    (HolaMundoIntentHandler_handle r).outputSpeech = some holaMundo_speech_text := by
  have hL : LaunchRequestHandler_can_handle r = false := by
    simp [LaunchRequestHandler_can_handle, is_request_type, ht]
  have hM : HolaMundoIntentHandler_can_handle r = true := by
    simp [HolaMundoIntentHandler_can_handle, is_intent_name, ht, hn]
  refine ⟨?_, rfl, rfl⟩
  simp only [skillDispatch, skillRequestHandlers, LaunchRequestHandler, HolaMundoIntentHandler,
    dispatch_cons_pure, hL, hM, if_true, if_false, Bool.false_eq_true]

/-- Witness for C5 at a concrete HolaMundoIntent request. -/
theorem hola_mundo_intent_ends_session_witness :
    skillDispatch ⟨"IntentRequest", some "HolaMundoIntent"⟩ =
      (.responded (HolaMundoIntentHandler_handle ⟨"IntentRequest", some "HolaMundoIntent"⟩), []) ∧
    (HolaMundoIntentHandler_handle ⟨"IntentRequest", some "HolaMundoIntent"⟩).shouldEndSession =
      some true ∧
    (HolaMundoIntentHandler_handle ⟨"IntentRequest", some "HolaMundoIntent"⟩).outputSpeech =
      some holaMundo_speech_text :=
  hola_mundo_intent_ends_session ⟨"IntentRequest", some "HolaMundoIntent"⟩ rfl rfl

/-- C6: an intent request named AMAZON.HelpIntent yields a response whose
reprompt text equals its speech text. -/
theorem help_intent_reprompt_equals_speech (r : Request)
    (ht : r.requestType = "IntentRequest")
    (hn : r.intentName = some "AMAZON.HelpIntent") :
    skillDispatch r = (.responded (HelpIntentHandler_handle r), []) ∧
    (HelpIntentHandler_handle r).reprompt = (HelpIntentHandler_handle r).outputSpeech ∧
    (HelpIntentHandler_handle r).outputSpeech = some help_speech_text := by
  have hL : LaunchRequestHandler_can_handle r = false := by
    simp [LaunchRequestHandler_can_handle, is_request_type, ht]
  have hM : HolaMundoIntentHandler_can_handle r = false := by
    simp [HolaMundoIntentHandler_can_handle, is_intent_name, ht, hn]
  have hH : HelpIntentHandler_can_handle r = true := by
    simp [HelpIntentHandler_can_handle, is_intent_name, ht, hn]
  refine ⟨?_, rfl, rfl⟩
  simp only [skillDispatch, skillRequestHandlers, LaunchRequestHandler, HolaMundoIntentHandler,
    HelpIntentHandler, dispatch_cons_pure, hL, hM, hH, if_true, if_false, Bool.false_eq_true]

/-- Witness for C6 at a concrete AMAZON.HelpIntent request. -/
theorem help_intent_reprompt_equals_speech_witness :
    skillDispatch ⟨"IntentRequest", some "AMAZON.HelpIntent"⟩ =
      (.responded (HelpIntentHandler_handle ⟨"IntentRequest", some "AMAZON.HelpIntent"⟩), []) ∧
    (HelpIntentHandler_handle ⟨"IntentRequest", some "AMAZON.HelpIntent"⟩).reprompt =
      (HelpIntentHandler_handle ⟨"IntentRequest", some "AMAZON.HelpIntent"⟩).outputSpeech ∧
    (HelpIntentHandler_handle ⟨"IntentRequest", some "AMAZON.HelpIntent"⟩).outputSpeech =
      some help_speech_text :=
  help_intent_reprompt_equals_speech ⟨"IntentRequest", some "AMAZON.HelpIntent"⟩ rfl rfl

/-- C7: intent requests named AMAZON.CancelIntent and AMAZON.StopIntent
produce identical output: the fixed farewell speech, a card titled
"Hola Mundo", and should-end-session true. -/
theorem cancel_and_stop_identical_output (r1 r2 : Request)
    (h1t : r1.requestType = "IntentRequest")
    (h1n : r1.intentName = some "AMAZON.CancelIntent")
    (h2t : r2.requestType = "IntentRequest")
    (h2n : r2.intentName = some "AMAZON.StopIntent") :
    skillDispatch r1 = skillDispatch r2 ∧
    skillDispatch r1 =
      (.responded { outputSpeech := some cancelStop_speech_text,
                    card := some ⟨"Hola Mundo", cancelStop_speech_text⟩,
                    reprompt := none, shouldEndSession := some true },
       []) := by
  have key : ∀ r : Request, r.requestType = "IntentRequest" →
      (r.intentName = some "AMAZON.CancelIntent" ∨ r.intentName = some "AMAZON.StopIntent") →
      skillDispatch r =
        (.responded { outputSpeech := some cancelStop_speech_text,
                      card := some ⟨"Hola Mundo", cancelStop_speech_text⟩,
                      reprompt := none, shouldEndSession := some true },
         []) := by
    intro r ht hn
    have hL : LaunchRequestHandler_can_handle r = false := by
      simp [LaunchRequestHandler_can_handle, is_request_type, ht]
    have hM : HolaMundoIntentHandler_can_handle r = false := by
      rcases hn with hn | hn <;> simp [HolaMundoIntentHandler_can_handle, is_intent_name, ht, hn]
    have hH : HelpIntentHandler_can_handle r = false := by
      rcases hn with hn | hn <;> simp [HelpIntentHandler_can_handle, is_intent_name, ht, hn]
    have hC : CancelAndStopIntentHandler_can_handle r = true := by
      rcases hn with hn | hn <;>
        simp [CancelAndStopIntentHandler_can_handle, is_intent_name, ht, hn]
    simp only [skillDispatch, skillRequestHandlers, LaunchRequestHandler, HolaMundoIntentHandler,
      HelpIntentHandler, CancelAndStopIntentHandler, dispatch_cons_pure, hL, hM, hH, hC,
      if_true, if_false, Bool.false_eq_true]
    rfl
  have e1 := key r1 h1t (Or.inl h1n)
  have e2 := key r2 h2t (Or.inr h2n)
  exact ⟨e1.trans e2.symm, e1⟩

/-- Witness for C7 at concrete cancel and stop requests. -/
theorem cancel_and_stop_identical_output_witness :
    skillDispatch ⟨"IntentRequest", some "AMAZON.CancelIntent"⟩ =
      skillDispatch ⟨"IntentRequest", some "AMAZON.StopIntent"⟩ ∧
    skillDispatch ⟨"IntentRequest", some "AMAZON.CancelIntent"⟩ =
      (.responded { outputSpeech := some cancelStop_speech_text,
                    card := some ⟨"Hola Mundo", cancelStop_speech_text⟩,
                    reprompt := none, shouldEndSession := some true },
       []) :=
  cancel_and_stop_identical_output ⟨"IntentRequest", some "AMAZON.CancelIntent"⟩
    ⟨"IntentRequest", some "AMAZON.StopIntent"⟩ rfl rfl rfl rfl

/-- C8: exactly one exception handler is registered, and its predicate
returns true for every (request, error) pair, making it a universal
fallback. -/
theorem single_universal_exception_handler :
    skillExceptionHandlers.length = 1 ∧
    ∀ (r : Request) (e : Err),
      skillExceptionHandlers.all (fun eh => eh.can_handle r e) = true :=
  ⟨rfl, fun _ _ => rfl⟩

/-- A list of four booleans with pairwise-false conjunctions holds at most
one true entry. -/
theorem count_true_le_one_of_pairwise (a b c d : Bool)
    (hab : (a && b) = false) (hac : (a && c) = false) (had : (a && d) = false)
    (hbc : (b && c) = false) (hbd : (b && d) = false) (hcd : (c && d) = false) :
    [a, b, c, d].count true ≤ 1 := by
  cases a <;> cases b <;> cases c <;> cases d <;> simp_all [List.count_cons]

/-- C9: for every request, at most one of the four registered request
handler predicates returns true: they are mutually exclusive over request
type and intent name. -/
theorem request_handler_predicates_mutually_exclusive (r : Request) :
    [LaunchRequestHandler_can_handle r, HolaMundoIntentHandler_can_handle r,
     HelpIntentHandler_can_handle r, CancelAndStopIntentHandler_can_handle r].count true ≤ 1 := by
  rcases r with ⟨t, n⟩
  apply count_true_le_one_of_pairwise <;>
    simp only [LaunchRequestHandler_can_handle, HolaMundoIntentHandler_can_handle,
      HelpIntentHandler_can_handle, CancelAndStopIntentHandler_can_handle,
      is_request_type, is_intent_name] <;>
    by_cases hL : t = "LaunchRequest" <;> by_cases hI : t = "IntentRequest" <;>
    rcases n with _ | m <;> simp_all

/-- C10: each of the four request handler actions returns a response whose
card is titled "Hola Mundo" with body equal to the spoken speech text, and
the exception handler's response carries no card. -/
theorem handler_responses_card_matches_speech (r : Request) (e : Err) :
    ((LaunchRequestHandler_handle r).card.map SimpleCard.title = some "Hola Mundo" ∧
     (LaunchRequestHandler_handle r).card.map SimpleCard.content =
       (LaunchRequestHandler_handle r).outputSpeech) ∧
    ((HolaMundoIntentHandler_handle r).card.map SimpleCard.title = some "Hola Mundo" ∧
     (HolaMundoIntentHandler_handle r).card.map SimpleCard.content =
       (HolaMundoIntentHandler_handle r).outputSpeech) ∧
    ((HelpIntentHandler_handle r).card.map SimpleCard.title = some "Hola Mundo" ∧
     (HelpIntentHandler_handle r).card.map SimpleCard.content =
       (HelpIntentHandler_handle r).outputSpeech) ∧
    ((CancelAndStopIntentHandler_handle r).card.map SimpleCard.title = some "Hola Mundo" ∧
     (CancelAndStopIntentHandler_handle r).card.map SimpleCard.content =
       (CancelAndStopIntentHandler_handle r).outputSpeech) ∧
    (AllExceptionHandler_handle r e).1.card = none :=
  ⟨⟨rfl, rfl⟩, ⟨rfl, rfl⟩, ⟨rfl, rfl⟩, ⟨rfl, rfl⟩, rfl⟩
